import Mathlib

/-!
Verification of the code-analysis relay server (src/server.js) and its
browser client (src/public/app.js).

The server logic is modelled as pure functions over a JSON value type with
JavaScript truthiness and typeof semantics.  External library effects that
the handler merely consumes are passed in as data or as explicit function
parameters: the upstream fetch result is an `UpstreamResult` argument, and
the JavaScript built-in `JSON.parse` (a host function, not repository code)
is a `String → Option JsonVal` parameter, `none` modelling a parse throw.
-/

set_option maxHeartbeats 1000000
set_option maxRecDepth 4000

namespace Relay

/-- JSON values as produced by a successful JSON parse.  An absent object
property (JavaScript `undefined`) is modelled as `Option.none` at the
access site, never as a `JsonVal`. -/
inductive JsonVal where
  | null : JsonVal
  | bool : Bool → JsonVal
  | num : Int → JsonVal
  | str : String → JsonVal
  | arr : List JsonVal → JsonVal
  | obj : List (String × JsonVal) → JsonVal
deriving Repr

mutual

/-- Boolean equality on JSON values (structural). -/
def JsonVal.beq : JsonVal → JsonVal → Bool
  | .null, .null => true
  | .bool a, .bool b => a == b
  | .num a, .num b => a == b
  | .str a, .str b => a == b
  | .arr xs, .arr ys => JsonVal.beqList xs ys
  | .obj fs, .obj gs => JsonVal.beqFields fs gs
  | _, _ => false

def JsonVal.beqList : List JsonVal → List JsonVal → Bool
  | [], [] => true
  | x :: xs, y :: ys => JsonVal.beq x y && JsonVal.beqList xs ys
  | _, _ => false

def JsonVal.beqFields : List (String × JsonVal) → List (String × JsonVal) → Bool
  | [], [] => true
  | (k, v) :: fs, (l, w) :: gs => k == l && JsonVal.beq v w && JsonVal.beqFields fs gs
  | _, _ => false

end

mutual

theorem JsonVal.beq_iff_eq : ∀ (a b : JsonVal), JsonVal.beq a b = true ↔ a = b
  | .null, .null => by simp [JsonVal.beq]
  | .null, .bool _ => by simp [JsonVal.beq]
  | .null, .num _ => by simp [JsonVal.beq]
  | .null, .str _ => by simp [JsonVal.beq]
  | .null, .arr _ => by simp [JsonVal.beq]
  | .null, .obj _ => by simp [JsonVal.beq]
  | .bool _, .null => by simp [JsonVal.beq]
  | .bool _, .bool _ => by simp [JsonVal.beq]
  | .bool _, .num _ => by simp [JsonVal.beq]
  | .bool _, .str _ => by simp [JsonVal.beq]
  | .bool _, .arr _ => by simp [JsonVal.beq]
  | .bool _, .obj _ => by simp [JsonVal.beq]
  | .num _, .null => by simp [JsonVal.beq]
  | .num _, .bool _ => by simp [JsonVal.beq]
  | .num _, .num _ => by simp [JsonVal.beq]
  | .num _, .str _ => by simp [JsonVal.beq]
  | .num _, .arr _ => by simp [JsonVal.beq]
  | .num _, .obj _ => by simp [JsonVal.beq]
  | .str _, .null => by simp [JsonVal.beq]
  | .str _, .bool _ => by simp [JsonVal.beq]
  | .str _, .num _ => by simp [JsonVal.beq]
  | .str _, .str _ => by simp [JsonVal.beq]
  | .str _, .arr _ => by simp [JsonVal.beq]
  | .str _, .obj _ => by simp [JsonVal.beq]
  | .arr _, .null => by simp [JsonVal.beq]
  | .arr _, .bool _ => by simp [JsonVal.beq]
  | .arr _, .num _ => by simp [JsonVal.beq]
  | .arr _, .str _ => by simp [JsonVal.beq]
  | .arr xs, .arr ys => by simp [JsonVal.beq, JsonVal.beqList_iff_eq xs ys]
  | .arr _, .obj _ => by simp [JsonVal.beq]
  | .obj _, .null => by simp [JsonVal.beq]
  | .obj _, .bool _ => by simp [JsonVal.beq]
  | .obj _, .num _ => by simp [JsonVal.beq]
  | .obj _, .str _ => by simp [JsonVal.beq]
  | .obj _, .arr _ => by simp [JsonVal.beq]
  | .obj fs, .obj gs => by simp [JsonVal.beq, JsonVal.beqFields_iff_eq fs gs]

theorem JsonVal.beqList_iff_eq : ∀ (xs ys : List JsonVal),
    JsonVal.beqList xs ys = true ↔ xs = ys
  | [], [] => by simp [JsonVal.beqList]
  | [], _ :: _ => by simp [JsonVal.beqList]
  | _ :: _, [] => by simp [JsonVal.beqList]
  | x :: xs, y :: ys => by
      simp [JsonVal.beqList, JsonVal.beq_iff_eq x y, JsonVal.beqList_iff_eq xs ys]

theorem JsonVal.beqFields_iff_eq : ∀ (fs gs : List (String × JsonVal)),
    JsonVal.beqFields fs gs = true ↔ fs = gs
  | [], [] => by simp [JsonVal.beqFields]
  | [], _ :: _ => by simp [JsonVal.beqFields]
  | _ :: _, [] => by simp [JsonVal.beqFields]
  | (k, v) :: fs, (l, w) :: gs => by
      simp [JsonVal.beqFields, JsonVal.beq_iff_eq v w, JsonVal.beqFields_iff_eq fs gs,
        and_assoc]

end

instance : DecidableEq JsonVal := fun a b =>
  decidable_of_iff _ (JsonVal.beq_iff_eq a b)

/-- First-match association lookup for object fields (parsed JSON objects
have unique keys). -/
def assoc : List (String × JsonVal) → String → Option JsonVal
  | [], _ => none
  | (k, v) :: rest, key => if k = key then some v else assoc rest key

/-- Property access `v.k`: `none` is JavaScript `undefined` (missing key or
access on a non-object; `null.k` would throw but every access in the source
is behind `?.` or a truthiness guard, so this case is the `?.` result). -/
def getField : JsonVal → String → Option JsonVal
  | .obj fs, k => assoc fs k
  | _, _ => none

/-- Index access `v?.[i]`: array element, or numeric-string property of an
object, `undefined` otherwise. -/
def getIndex : JsonVal → Nat → Option JsonVal
  | .arr xs, i => xs.get? i
  | .obj fs, i => assoc fs (toString i)
  | _, _ => none

/-- JavaScript truthiness of a value (`Boolean(v)`).  JSON values carry no
`NaN`, so a number is truthy exactly when nonzero. -/
def truthy : JsonVal → Bool
  | .null => false
  | .bool b => b
  | .num n => n != 0
  | .str s => s != ""
  | .arr _ => true
  | .obj _ => true

/-- Truthiness of a possibly-`undefined` value. -/
def truthyOpt : Option JsonVal → Bool
  | none => false
  | some v => truthy v

/-- `typeof v === \x7bstring\x7d` for a definite value. -/
def isStr : JsonVal → Bool
  | .str _ => true
  | _ => false

/-- `typeof v === string` for a possibly-`undefined` value. -/
def isStrOpt : Option JsonVal → Bool
  | some (.str _) => true
  | _ => false

/-- `typeof v === object`: true for `null`, arrays and objects in
JavaScript. -/
def jsTypeofObject : JsonVal → Bool
  | .null => true
  | .arr _ => true
  | .obj _ => true
  | _ => false

/-- The nullish-coalescing operator `v ?? d` applied to a possibly-missing
value: `undefined` and `null` both fall through to the default. -/
def coalesce (v : Option JsonVal) (d : JsonVal) : JsonVal :=
  match v with
  | none => d
  | some .null => d
  | some x => x

/-- Serialisation used for `JSON.stringify(data)` in the empty-response
diagnostic (models the host built-in; the claims never inspect its text). -/
def stringifyEsc (c : Char) : List Char :=
  if c = Char.ofNat 34 then [Char.ofNat 92, Char.ofNat 34]
  else if c = Char.ofNat 92 then [Char.ofNat 92, Char.ofNat 92]
  else if c = Char.ofNat 10 then [Char.ofNat 92, Char.ofNat 110]
  else [c]

def quoteStr (s : String) : String :=
  String.mk (Char.ofNat 34 :: s.data.flatMap stringifyEsc ++ [Char.ofNat 34])

mutual

def stringify : JsonVal → String
  | .null => "null"
  | .bool b => if b then "true" else "false"
  | .num n => toString n
  | .str s => quoteStr s
  | .arr xs => "[" ++ stringifyList xs ++ "]"
  | .obj fs => "\x7b" ++ stringifyFields fs ++ "\x7d"

def stringifyList : List JsonVal → String
  | [] => ""
  | [x] => stringify x
  | x :: xs => stringify x ++ "," ++ stringifyList xs

def stringifyFields : List (String × JsonVal) → String
  | [] => ""
  | [(k, v)] => quoteStr k ++ ":" ++ stringify v
  | (k, v) :: fs => quoteStr k ++ ":" ++ stringify v ++ "," ++ stringifyFields fs

end

/-- An HTTP response produced by the relay: status code plus JSON body. -/
structure HttpResponse where
  status : Nat
  body : JsonVal
deriving Repr, DecidableEq

/-- The canonical no-error body
`\x7bhasError:false, error:null, correctedCode:null\x7d` (server.js line 99). -/
def canonicalNoError : JsonVal :=
  .obj [("hasError", .bool false), ("error", .null), ("correctedCode", .null)]

/-- The placeholder error object
`\x7btype:"UnknownError", reason:"Unknown", line:null\x7d` (server.js line 103). -/
def placeholderError : JsonVal :=
  .obj [("type", .str "UnknownError"), ("reason", .str "Unknown"), ("line", .null)]

/-- `typeof x === string ? x : fallback` (server.js lines 109-110). -/
def coerceStr (v : Option JsonVal) (fallback : String) : JsonVal :=
  match v with
  | some (.str s) => .str s
  | _ => .str fallback

/-- `typeof x === number ? x : null` (server.js line 111). -/
def coerceNum (v : Option JsonVal) : JsonVal :=
  match v with
  | some (.num n) => .num n
  | _ => .null

/-- `typeof x === string ? x : null` (server.js line 113). -/
def coerceStrOrNull (v : JsonVal) : JsonVal :=
  match v with
  | .str s => .str s
  | _ => .null

/-- Normalisation of the parsed upstream model reply, server.js lines
94-114: field-by-field defensive coercion into the canonical result
shape. -/
def normalizeReply (parsed : JsonVal) : JsonVal :=
  let hasError := truthyOpt (getField parsed "hasError")
  let error := coalesce (getField parsed "error") .null
  let correctedCode := coalesce (getField parsed "correctedCode") .null
  if !hasError then
    canonicalNoError
  else if !truthy error || !jsTypeofObject error then
    .obj [("hasError", .bool true), ("error", placeholderError),
          ("correctedCode", correctedCode)]
  else
    .obj [("hasError", .bool true),
          ("error", .obj [("type", coerceStr (getField error "type") "UnknownError"),
                          ("reason", coerceStr (getField error "reason") "Unknown"),
                          ("line", coerceNum (getField error "line"))]),
          ("correctedCode", coerceStrOrNull correctedCode)]

/-- Result of the `fetch` to the model provider, as consumed by the
handler: `ok`/`status` from the response object, `text` the body text read
when not ok, `json` the parsed body when ok. -/
structure UpstreamResult where
  ok : Bool
  status : Nat
  text : String
  json : JsonVal
deriving Repr, DecidableEq

/-- `data?.candidates?.[0]?.content?.parts?.[0]?.text` (server.js line 76). -/
def extractContent (data : JsonVal) : Option JsonVal :=
  ((((getField data "candidates").bind (fun c => getIndex c 0)).bind
      (fun c => getField c "content")).bind
      (fun c => getField c "parts")).bind
      (fun p => getIndex p 0) |>.bind (fun p => getField p "text")

/-- Body of the 429 rate-limit response (server.js lines 63-67). -/
def rateLimitBody : JsonVal :=
  .obj [("error", .str "Rate limit exceeded. Please wait a moment before trying again."),
        ("details", .str "Free tier limit: 20 requests per day. Try again later or upgrade your plan."),
        ("isRateLimit", .bool true)]

/-- Upstream response handling and normalisation, server.js lines 56-114:
everything after validation succeeded and the fetch returned. -/
def handleUpstream (parseJson : String → Option JsonVal) (up : UpstreamResult) :
    HttpResponse :=
  if !up.ok then
    if up.status = 429 then
      ⟨429, rateLimitBody⟩
    else
      ⟨502, .obj [("error", .str "Gemini request failed"), ("details", .str up.text)]⟩
  else
    let content := extractContent up.json
    if !truthyOpt content || !isStrOpt content then
      ⟨502, .obj [("error", .str "Gemini returned empty response"),
                  ("details", .str (stringify up.json))]⟩
    else
      match content with
      | some (.str s) =>
        match parseJson s with
        | none => ⟨502, .obj [("error", .str "Gemini returned non-JSON"), ("details", .str s)]⟩
        | some parsed => ⟨200, normalizeReply parsed⟩
      | _ => ⟨500, .obj [("error", .str "Server error")]⟩

/-- The full `POST /api/analyze` handler, server.js lines 20-119.
`body` is `req.body` (`none` when absent/undefined), `apiKey` is
`process.env.GEMINI_API_KEY` (`none` when unset), `up` the fetch result. -/
def analyzeHandler (parseJson : String → Option JsonVal) (body : Option JsonVal)
    (apiKey : Option String) (up : UpstreamResult) : HttpResponse :=
  let b := coalesce body (.obj [])
  let language := getField b "language"
  let code := getField b "code"
  if !truthyOpt language || !isStrOpt language then
    ⟨400, .obj [("error", .str "Missing language")]⟩
  else if !truthyOpt code || !isStrOpt code then
    ⟨400, .obj [("error", .str "Missing code")]⟩
  else if !(match apiKey with | none => false | some s => s != "") then
    ⟨500, .obj [("error", .str "Server missing GEMINI_API_KEY")]⟩
  else
    handleUpstream parseJson up

/-- `typeof v === number` for a possibly-`undefined` value. -/
def isNumOpt : Option JsonVal → Bool
  | some (.num _) => true
  | _ => false

/-- The reply's `error` field after `?? null` (server.js line 95). -/
def parsedErr (parsed : JsonVal) : JsonVal := coalesce (getField parsed "error") .null

/-- The reply's `correctedCode` field after `?? null` (server.js line 96). -/
def parsedCorrected (parsed : JsonVal) : JsonVal :=
  coalesce (getField parsed "correctedCode") .null

/-- Observation of a field of the `error` object inside a response body. -/
def respErrField (out : JsonVal) (k : String) : Option JsonVal :=
  (getField out "error").bind (fun e => getField e k)

end Relay

namespace Client

open Relay

/-!
Model of the browser controller `analyze` flow (src/public/app.js).  The
DOM is modelled by a `ClientView` record of the document state the script
mutates; presentation-only pieces (line numbers, speak-button markup,
status timeouts) are outside the claims and omitted.  A JavaScript
`TypeError` raised inside the `try` block (calling `.trim()` or
`.replaceAll()` on a non-string) is modelled by threading an
`Option String` exception alongside the state already mutated.
-/

mutual

/-- JavaScript string coercion, as applied by template interpolation and
`textContent` assignment. -/
def jsToString : JsonVal → String
  | .null => "null"
  | .bool b => if b then "true" else "false"
  | .num n => toString n
  | .str s => s
  | .arr xs => jsToStringElems xs
  | .obj _ => "[object Object]"

def jsToStringElems : List JsonVal → String
  | [] => ""
  | [.null] => ""
  | [x] => jsToString x
  | .null :: xs => "," ++ jsToStringElems xs
  | x :: xs => jsToString x ++ "," ++ jsToStringElems xs

end

/-- Logical-or `a || b` on a possibly-`undefined` left operand: the left
value when truthy, otherwise the default. -/
def jsOr (v : Option JsonVal) (d : JsonVal) : JsonVal :=
  match v with
  | some x => if truthy x then x else d
  | none => d

/-- JavaScript string `.trim()`: strip leading and trailing whitespace
(space, tab, and line terminators). -/
def jsWhitespaceChar (c : Char) : Bool :=
  c = ' ' || c = Char.ofNat 9 || c = Char.ofNat 10 || c = Char.ofNat 13 ||
  c = Char.ofNat 11 || c = Char.ofNat 12

def jsTrim (s : String) : String :=
  String.mk (((s.data.dropWhile jsWhitespaceChar).reverse.dropWhile
    jsWhitespaceChar).reverse)

def ampC : Char := '&'
def ltC : Char := '<'
def gtC : Char := '>'
def quotC : Char := Char.ofNat 34
def aposC : Char := Char.ofNat 39

/-- The characters of the five replacement entities "&amp;", "&lt;",
"&gt;", "&quot;" and "&#039;". -/
def ampEnt : List Char := ['&', 'a', 'm', 'p', ';']
def ltEnt : List Char := ['&', 'l', 't', ';']
def gtEnt : List Char := ['&', 'g', 't', ';']
def quotEnt : List Char := ['&', 'q', 'u', 'o', 't', ';']
def aposEnt : List Char := ['&', '#', '0', '3', '9', ';']

/-- One pass of `s.replaceAll(c, r)` for a single-character search string:
every occurrence of the character is substituted. -/
def replaceAllChar (c : Char) (r : List Char) : List Char → List Char
  | [] => []
  | x :: xs => (if x = c then r else [x]) ++ replaceAllChar c r xs

/-- `escapeHtml` (app.js lines 91-98): the five `replaceAll` passes in
source order, ampersand first. -/
def escapeHtmlChars (s : List Char) : List Char :=
  replaceAllChar aposC aposEnt
    (replaceAllChar quotC quotEnt
      (replaceAllChar gtC gtEnt
        (replaceAllChar ltC ltEnt
          (replaceAllChar ampC ampEnt s))))

def escapeHtml (s : String) : String := String.mk (escapeHtmlChars s.data)

/-- `escapeHtml` applied to an arbitrary value: on a non-string argument
`.replaceAll` is not a function and a `TypeError` is thrown (`none`). -/
def escapeHtmlVal : JsonVal → Option String
  | .str s => some (escapeHtml s)
  | _ => none

/-- The document state the `analyze` flow reads and writes. -/
structure ClientView where
  resultsHtml : String
  errorDetailsHidden : Bool
  correctedHidden : Bool
  fixedContent : String
  errorTypeText : String
  errorReasonText : String
  errorLineText : String
  statusMsg : String
  analyzeDisabled : Bool
  speaking : Bool
deriving Repr, DecidableEq

/-- Rate-limit panel template (app.js lines 228-237). -/
def rateLimitHtml (msg details : String) : String :=
  "\n          <div class=\"placeholder\">\n            <div class=\"placeholder-icon\" style=\"background: linear-gradient(135deg, #f59e0b, #d97706);\">\n              <i class=\"fas fa-clock\"></i>\n            </div>\n            <h3>Rate Limit Exceeded</h3>\n            <p>" ++ msg ++ "</p>\n            <p><strong>Details:</strong> " ++ details ++ "</p>\n          </div>\n        "

/-- Generic failure panel template (app.js lines 239-247). -/
def analysisFailedHtml (msg : String) : String :=
  "\n          <div class=\"placeholder\">\n            <div class=\"placeholder-icon\" style=\"background: linear-gradient(135deg, #ef4444, #dc2626);\">\n              <i class=\"fas fa-exclamation-triangle\"></i>\n            </div>\n            <h3>Analysis Failed</h3>\n            <p>" ++ msg ++ "</p>\n          </div>\n        "

/-- Unexpected-shape panel template (app.js lines 256-264). -/
def unexpectedResponseHtml : String :=
  "\n        <div class=\"placeholder\">\n          <div class=\"placeholder-icon\" style=\"background: linear-gradient(135deg, #f59e0b, #d97706);\">\n            <i class=\"fas fa-question-circle\"></i>\n          </div>\n          <h3>Unexpected Response</h3>\n          <p>Received an unexpected response from the server.</p>\n        </div>\n      "

/-- Success panel template, `showNoError` (app.js lines 134-142). -/
def noErrorHtml : String :=
  "\n    <div class=\"placeholder\">\n      <div class=\"placeholder-icon\" style=\"background: linear-gradient(135deg, #10b981, #22c55e);\">\n        <i class=\"fas fa-check\"></i>\n      </div>\n      <h3>No Errors Found!</h3>\n      <p>Your code looks great! No errors were detected.</p>\n    </div>\n  "

/-- Errors-detected banner template (app.js lines 277-285). -/
def errorsDetectedHtml : String :=
  "\n      <div class=\"placeholder\">\n        <div class=\"placeholder-icon\" style=\"background: linear-gradient(135deg, #ef4444, #dc2626);\">\n          <i class=\"fas fa-bug\"></i>\n        </div>\n        <h3>Errors Detected!</h3>\n        <p>We found issues in your code. See the details below.</p>\n      </div>\n    "

/-- Connection-error panel template (app.js lines 293-301). -/
def connectionErrorHtml (msg : String) : String :=
  "\n      <div class=\"placeholder\">\n        <div class=\"placeholder-icon\" style=\"background: linear-gradient(135deg, #ef4444, #dc2626);\">\n          <i class=\"fas fa-wifi\"></i>\n        </div>\n        <h3>Connection Error</h3>\n        <p>" ++ msg ++ "</p>\n      </div>\n    "

/-- Message of the `TypeError` raised by calling a string method on a
non-string value (exact host wording immaterial to the claims). -/
def typeErrorMessage : String := "is not a function"

/-- Fallback error object `data.error || ...` in the client (app.js line 287). -/
def clientPlaceholderError : JsonVal :=
  .obj [("type", .str "UnknownError"), ("reason", .str "Unknown"), ("line", .null)]

/-- `showErrorDetails` (app.js lines 114-122). -/
def showErrorDetails (st : ClientView) (error : JsonVal) : ClientView :=
  { st with
    errorTypeText :=
      match getField error "type" with
      | some v => if truthy v then jsToString v else "UnknownError"
      | none => "UnknownError",
    errorReasonText :=
      match getField error "reason" with
      | some v => if truthy v then jsToString v else "Unknown"
      | none => "Unknown",
    errorLineText :=
      match getField error "line" with
      | none => "Unknown"
      | some .null => "Unknown"
      | some v => "Line " ++ jsToString v,
    errorDetailsHidden := false }

/-- `showCorrectedCode` (app.js lines 124-131): shows the panel when the
argument is truthy and trims to a truthy string; a truthy non-string has
no `.trim` method and throws. -/
def showCorrectedCode (st : ClientView) (code : Option JsonVal) :
    ClientView × Option String :=
  match code with
  | none => ({ st with correctedHidden := true }, none)
  | some v =>
    if truthy v then
      match v with
      | .str s =>
        if jsTrim s != "" then
          ({ st with fixedContent := s, correctedHidden := false }, none)
        else
          ({ st with correctedHidden := true }, none)
      | _ => (st, some typeErrorMessage)
    else
      ({ st with correctedHidden := true }, none)

/-- `showNoError` (app.js lines 133-145). -/
def showNoError (st : ClientView) : ClientView :=
  { st with resultsHtml := noErrorHtml, errorDetailsHidden := true,
            correctedHidden := true }

/-- How the relay call settles, as observed by the client: a thrown
network exception, or a response with its `ok` flag and parsed JSON body
(`resp.json().catch(() => null)` yields `JsonVal.null` when the body is
not JSON). -/
inductive FetchOutcome where
  | thrown : String → FetchOutcome
  | reply : Bool → JsonVal → FetchOutcome
deriving Repr, DecidableEq

/-- The `catch` branch of `analyze` (app.js lines 292-304). -/
def analyzeCatch (st : ClientView) (msg : String) : ClientView :=
  { st with resultsHtml := connectionErrorHtml (escapeHtml msg),
            errorDetailsHidden := true, correctedHidden := true,
            speaking := false }

/-- The `try` body of `analyze` after the fetch settled with a response
(app.js lines 220-290), returning the mutated view and a pending
exception when a `TypeError` escaped. -/
def analyzeTry (st : ClientView) (ok : Bool) (data : JsonVal) :
    ClientView × Option String :=
  if !ok then
    let msg := jsOr (getField data "error") (.str "Request failed")
    let details := jsOr (getField data "details") (.str "")
    let isRateLimit := truthy (jsOr (getField data "isRateLimit") (.bool false))
    if isRateLimit then
      match escapeHtmlVal msg with
      | none => (st, some typeErrorMessage)
      | some m =>
        match escapeHtmlVal details with
        | none => (st, some typeErrorMessage)
        | some d =>
          ({ st with resultsHtml := rateLimitHtml m d,
                     errorDetailsHidden := true, correctedHidden := true }, none)
    else
      match escapeHtmlVal msg with
      | none => (st, some typeErrorMessage)
      | some m =>
        ({ st with resultsHtml := analysisFailedHtml m,
                   errorDetailsHidden := true, correctedHidden := true }, none)
  else if !(truthy data) ||
      !(match getField data "hasError" with | some (.bool _) => true | _ => false) then
    ({ st with resultsHtml := unexpectedResponseHtml,
               errorDetailsHidden := true, correctedHidden := true }, none)
  else if !(truthyOpt (getField data "hasError")) then
    ({ showNoError st with statusMsg := "Analysis complete - no errors found!" }, none)
  else
    let st1 := { st with resultsHtml := errorsDetectedHtml }
    let st2 := showErrorDetails st1 (jsOr (getField data "error") clientPlaceholderError)
    match showCorrectedCode st2 (getField data "correctedCode") with
    | (st3, some e) => (st3, some e)
    | (st3, none) =>
      ({ st3 with
          statusMsg := "Analysis complete - errors found and fixes provided!" }, none)

/-- The full `analyze` flow (app.js lines 202-308): empty-code guard,
disable trigger, settle the fetch, `catch`, and the `finally` that
re-enables the trigger. -/
def analyze (st : ClientView) (codeText : String) (outcome : FetchOutcome) :
    ClientView :=
  if jsTrim codeText = "" then
    { st with statusMsg := "Please write or paste some code first." }
  else
    let st1 := { st with analyzeDisabled := true, statusMsg := "Analyzing your code..." }
    let st2 :=
      match outcome with
      | .thrown msg => analyzeCatch st1 msg
      | .reply ok data =>
        match analyzeTry st1 ok data with
        | (st', none) => st'
        | (st', some msg) => analyzeCatch st' msg
    { st2 with analyzeDisabled := false }

/-- Substitution applied per character by the composed `escapeHtml`
passes: each special character becomes its HTML entity. -/
def escChar (c : Char) : List Char :=
  if c = ampC then ampEnt
  else if c = ltC then ltEnt
  else if c = gtC then gtEnt
  else if c = quotC then quotEnt
  else if c = aposC then aposEnt
  else [c]

/-- List prefix test by character equality. -/
def isPrefixOfChars : List Char → List Char → Bool
  | [], _ => true
  | _ :: _, [] => false
  | a :: as, b :: bs => if a = b then isPrefixOfChars as bs else false

/-- The list begins with one of the five entities `escapeHtml` emits. -/
def entityStart (l : List Char) : Bool :=
  isPrefixOfChars ampEnt l || isPrefixOfChars ltEnt l || isPrefixOfChars gtEnt l ||
  isPrefixOfChars quotEnt l || isPrefixOfChars aposEnt l

/-- Every ampersand in the list begins one of the five emitted entities. -/
def ampEntityOk : List Char → Bool
  | [] => true
  | c :: rest => (if c = ampC then entityStart (c :: rest) else true) && ampEntityOk rest

/-- A character `escapeHtml` may leave in its output text: none of the four
characters it turns into entities (the ampersand has its own rule). -/
def goodChar (x : Char) : Bool := !(x = ltC || x = gtC || x = quotC || x = aposC)

end Client

section Sanity
open Relay

example : normalizeReply (.obj [("hasError", .bool false), ("error", .str "junk"),
    ("correctedCode", .num 5)]) = canonicalNoError := by decide

example : normalizeReply (.obj [("hasError", .bool true), ("error", .null),
    ("correctedCode", .num 42)]) =
    .obj [("hasError", .bool true), ("error", placeholderError),
          ("correctedCode", .num 42)] := by decide

example : normalizeReply (.obj [("hasError", .bool true),
    ("error", .obj [("type", .str "SyntaxError"), ("reason", .num 3), ("line", .str "x")]),
    ("correctedCode", .num 42)]) =
    .obj [("hasError", .bool true),
          ("error", .obj [("type", .str "SyntaxError"), ("reason", .str "Unknown"),
                          ("line", .null)]),
          ("correctedCode", .null)] := by decide

example : analyzeHandler (fun _ => none) none (some "k")
    ⟨true, 200, "", .null⟩ = ⟨400, .obj [("error", .str "Missing language")]⟩ := by decide

end Sanity

open Relay Client

/-- Helper: a successful field access means the value is an object, hence
truthy. -/
theorem truthy_of_getField_some {v : JsonVal} {k : String} {x : JsonVal}
    (h : Relay.getField v k = some x) : truthy v = true := by
  cases v <;> simp [Relay.getField, truthy] at h ⊢

/-- Helper: trimming the empty string gives the empty string. -/
theorem jsTrim_empty : jsTrim "" = "" := by decide

/-- Helper: a successful field access means the value is an object. -/
theorem obj_of_getField_some {v : JsonVal} {k : String} {x : JsonVal}
    (h : Relay.getField v k = some x) : ∃ fs, v = JsonVal.obj fs := by
  cases v <;> simp [Relay.getField] at h ⊢

/-- C1: for every successfully parsed upstream reply whose hasError field
is not truthy, the normalized 200 body is exactly the canonical
no-error shape, whatever else the reply contains. -/
theorem claim1_falsy_hasError_canonical (parsed : JsonVal)
    (h : truthyOpt (Relay.getField parsed "hasError") = false) :
    normalizeReply parsed = canonicalNoError := by
  simp [normalizeReply, h]

theorem claim1_witness :
    truthyOpt (Relay.getField (JsonVal.obj [("hasError", .num 0), ("error", .str "garbage"),
        ("correctedCode", .num 7), ("extras", .bool true)]) "hasError") = false ∧
    normalizeReply (JsonVal.obj [("hasError", .num 0), ("error", .str "garbage"),
        ("correctedCode", .num 7), ("extras", .bool true)]) = canonicalNoError :=
  ⟨by decide, claim1_falsy_hasError_canonical _ (by decide)⟩

/-- C2 as stated is false on the code: with truthy hasError, a null error
and a numeric correctedCode, the relay forwards the number unchanged
instead of replacing it with null. -/
theorem claim2_counterexample :
    normalizeReply (JsonVal.obj [("hasError", .bool true), ("error", .null),
        ("correctedCode", .num 42)]) =
      JsonVal.obj [("hasError", .bool true), ("error", placeholderError),
        ("correctedCode", .num 42)] ∧
    normalizeReply (JsonVal.obj [("hasError", .bool true), ("error", .null),
        ("correctedCode", .num 42)]) ≠
      JsonVal.obj [("hasError", .bool true), ("error", placeholderError),
        ("correctedCode", .null)] := by
  constructor <;> decide

/-- C2 amended: with truthy hasError and an error value that is falsy or
not of JavaScript typeof object, the relay returns the placeholder error
and forwards correctedCode exactly as coalesced (no string check in this
branch). -/
theorem claim2_amended (parsed : JsonVal)
    (h1 : truthyOpt (Relay.getField parsed "hasError") = true)
    (h2 : (!truthy (parsedErr parsed) || !jsTypeofObject (parsedErr parsed)) = true) :
    normalizeReply parsed =
      JsonVal.obj [("hasError", .bool true), ("error", placeholderError),
        ("correctedCode", parsedCorrected parsed)] := by
  simp only [normalizeReply, parsedErr, parsedCorrected] at *
  rw [h1, h2]
  simp

theorem claim2_witness :
    truthyOpt (Relay.getField (JsonVal.obj [("hasError", .bool true), ("error", .str "oops"),
        ("correctedCode", .num 42)]) "hasError") = true ∧
    normalizeReply (JsonVal.obj [("hasError", .bool true), ("error", .str "oops"),
        ("correctedCode", .num 42)]) =
      JsonVal.obj [("hasError", .bool true), ("error", placeholderError),
        ("correctedCode", parsedCorrected (JsonVal.obj [("hasError", .bool true),
          ("error", .str "oops"), ("correctedCode", .num 42)]))] :=
  ⟨by decide, claim2_amended _ (by decide) (by decide)⟩

/-- C6: the normalization is a pure, deterministic function of the parsed
upstream payload: identical parsed replies yield identical bodies. -/
theorem claim6_deterministic (p q : JsonVal) (h : p = q) :
    normalizeReply p = normalizeReply q := by rw [h]

theorem claim6_witness :
    (JsonVal.obj [("hasError", .bool true)]) = (JsonVal.obj [("hasError", .bool true)]) ∧
    normalizeReply (JsonVal.obj [("hasError", .bool true)]) =
      normalizeReply (JsonVal.obj [("hasError", .bool true)]) :=
  ⟨rfl, claim6_deterministic _ _ rfl⟩

/-- C10: a request body that is absent/undefined (`none`) or JSON `null`
does not make the handler throw: the `?? ` default lets the
destructuring succeed and the request is rejected with
400 "Missing language", for any upstream behaviour. -/
theorem claim10_nullish_body (parseJson : String → Option JsonVal)
    (apiKey : Option String) (up : UpstreamResult) :
    analyzeHandler parseJson none apiKey up =
      ⟨400, JsonVal.obj [("error", .str "Missing language")]⟩ ∧
    analyzeHandler parseJson (some .null) apiKey up =
      ⟨400, JsonVal.obj [("error", .str "Missing language")]⟩ := by
  constructor <;> rfl

/-- C3: with truthy hasError and an error value that is truthy and of
JavaScript typeof object, each output field is the coerced reply field:
type/reason pass through when strings and fall back to
"UnknownError"/"Unknown"; line passes through when a number and is null
otherwise; correctedCode passes through when a string and is null
otherwise. -/
theorem claim3_object_error_coercion (parsed : JsonVal)
    (h1 : truthyOpt (Relay.getField parsed "hasError") = true)
    (h2 : truthy (parsedErr parsed) = true)
    (h3 : jsTypeofObject (parsedErr parsed) = true) :
    Relay.getField (normalizeReply parsed) "hasError" = some (.bool true) ∧
    (∀ s, Relay.getField (parsedErr parsed) "type" = some (.str s) →
      respErrField (normalizeReply parsed) "type" = some (.str s)) ∧
    (isStrOpt (Relay.getField (parsedErr parsed) "type") = false →
      respErrField (normalizeReply parsed) "type" = some (.str "UnknownError")) ∧
    (∀ s, Relay.getField (parsedErr parsed) "reason" = some (.str s) →
      respErrField (normalizeReply parsed) "reason" = some (.str s)) ∧
    (isStrOpt (Relay.getField (parsedErr parsed) "reason") = false →
      respErrField (normalizeReply parsed) "reason" = some (.str "Unknown")) ∧
    (∀ n, Relay.getField (parsedErr parsed) "line" = some (.num n) →
      respErrField (normalizeReply parsed) "line" = some (.num n)) ∧
    (isNumOpt (Relay.getField (parsedErr parsed) "line") = false →
      respErrField (normalizeReply parsed) "line" = some .null) ∧
    (∀ s, parsedCorrected parsed = .str s →
      Relay.getField (normalizeReply parsed) "correctedCode" = some (.str s)) ∧
    (isStr (parsedCorrected parsed) = false →
      Relay.getField (normalizeReply parsed) "correctedCode" = some .null) := by
  have hn : normalizeReply parsed =
      JsonVal.obj [("hasError", .bool true),
        ("error", .obj [("type", coerceStr (Relay.getField (parsedErr parsed) "type") "UnknownError"),
                        ("reason", coerceStr (Relay.getField (parsedErr parsed) "reason") "Unknown"),
                        ("line", coerceNum (Relay.getField (parsedErr parsed) "line"))]),
        ("correctedCode", coerceStrOrNull (parsedCorrected parsed))] := by
    simp only [normalizeReply, parsedErr, parsedCorrected] at *
    rw [h1, h2, h3]
    simp
  rw [hn]
  refine ⟨by simp [Relay.getField, assoc], ?_, ?_, ?_, ?_, ?_, ?_, ?_, ?_⟩
  · intro s hs
    rw [hs]
    simp [respErrField, Relay.getField, assoc, coerceStr]
  · intro h
    rcases hts : Relay.getField (parsedErr parsed) "type" with _ | v
    · simp [respErrField, Relay.getField, assoc, coerceStr]
    · cases v <;> simp_all [respErrField, Relay.getField, assoc, coerceStr, isStrOpt]
  · intro s hs
    rw [hs]
    simp [respErrField, Relay.getField, assoc, coerceStr]
  · intro h
    rcases hts : Relay.getField (parsedErr parsed) "reason" with _ | v
    · simp [respErrField, Relay.getField, assoc, coerceStr]
    · cases v <;> simp_all [respErrField, Relay.getField, assoc, coerceStr, isStrOpt]
  · intro n hn'
    rw [hn']
    simp [respErrField, Relay.getField, assoc, coerceNum]
  · intro h
    rcases hts : Relay.getField (parsedErr parsed) "line" with _ | v
    · simp [respErrField, Relay.getField, assoc, coerceNum]
    · cases v <;> simp_all [respErrField, Relay.getField, assoc, coerceNum, isNumOpt]
  · intro s hs
    rw [hs]
    simp [Relay.getField, assoc, coerceStrOrNull]
  · intro h
    rcases hts : parsedCorrected parsed with _ | _ | _ | s <;>
      simp_all [Relay.getField, assoc, coerceStrOrNull, isStr]

theorem claim3_witness :
    (truthyOpt (Relay.getField (JsonVal.obj [("hasError", .bool true),
        ("error", .obj [("type", .str "SyntaxError"), ("reason", .num 3), ("line", .num 7)]),
        ("correctedCode", .num 42)]) "hasError") = true) ∧
    (respErrField (normalizeReply (JsonVal.obj [("hasError", .bool true),
        ("error", .obj [("type", .str "SyntaxError"), ("reason", .num 3), ("line", .num 7)]),
        ("correctedCode", .num 42)])) "line" = some (.num 7)) := by
  refine ⟨by decide, ?_⟩
  exact (claim3_object_error_coercion _ (by decide) (by decide) (by decide)).2.2.2.2.2.1
    7 (by decide)

/-- C4: validation is performed in order with first failure winning, and a
failed validation produces the same 400/500 response for every upstream
behaviour and every JSON parser, i.e. the external model is never
consulted. -/
theorem claim4_validation_order (parseJson : String → Option JsonVal)
    (body : Option JsonVal) (apiKey : Option String) (up : UpstreamResult) :
    ((!truthyOpt (Relay.getField (coalesce body (.obj [])) "language") ||
      !isStrOpt (Relay.getField (coalesce body (.obj [])) "language")) = true →
      analyzeHandler parseJson body apiKey up =
        ⟨400, JsonVal.obj [("error", .str "Missing language")]⟩) ∧
    ((!truthyOpt (Relay.getField (coalesce body (.obj [])) "language") ||
      !isStrOpt (Relay.getField (coalesce body (.obj [])) "language")) = false →
     (!truthyOpt (Relay.getField (coalesce body (.obj [])) "code") ||
      !isStrOpt (Relay.getField (coalesce body (.obj [])) "code")) = true →
      analyzeHandler parseJson body apiKey up =
        ⟨400, JsonVal.obj [("error", .str "Missing code")]⟩) ∧
    ((!truthyOpt (Relay.getField (coalesce body (.obj [])) "language") ||
      !isStrOpt (Relay.getField (coalesce body (.obj [])) "language")) = false →
     (!truthyOpt (Relay.getField (coalesce body (.obj [])) "code") ||
      !isStrOpt (Relay.getField (coalesce body (.obj [])) "code")) = false →
     apiKey = none →
      analyzeHandler parseJson body apiKey up =
        ⟨500, JsonVal.obj [("error", .str "Server missing GEMINI_API_KEY")]⟩) := by
  refine ⟨?_, ?_, ?_⟩
  · intro h
    simp only [analyzeHandler]
    rw [h]
    simp
  · intro h1 h2
    simp only [analyzeHandler]
    rw [h1, h2]
    simp
  · intro h1 h2 h3
    subst h3
    simp only [analyzeHandler]
    rw [h1, h2]
    simp

theorem claim4_witness :
    ((!truthyOpt (Relay.getField (coalesce (some (JsonVal.obj [("language", .str "python")]))
        (.obj [])) "language") ||
      !isStrOpt (Relay.getField (coalesce (some (JsonVal.obj [("language", .str "python")]))
        (.obj [])) "language")) = false) ∧
    (analyzeHandler (fun _ => none) (some (JsonVal.obj [("language", .str "python")]))
        (some "key") ⟨true, 200, "", .null⟩ =
      ⟨400, JsonVal.obj [("error", .str "Missing code")]⟩) := by
  refine ⟨by decide, ?_⟩
  exact (claim4_validation_order (fun _ => none)
    (some (JsonVal.obj [("language", .str "python")])) (some "key")
    ⟨true, 200, "", .null⟩).2.1 (by decide) (by decide)

/-- C5 as stated is false on the code: an upstream 200 whose text payload
is the empty string is a string payload that fails JSON parsing, yet the
relay classifies it as "Gemini returned empty response", not
"Gemini returned non-JSON". -/
theorem claim5_counterexample :
    extractContent (JsonVal.obj [("candidates", .arr [.obj [("content",
        .obj [("parts", .arr [.obj [("text", .str "")]])])]])]) = some (.str "") ∧
    (fun (_ : String) => (none : Option JsonVal)) "" = none ∧
    handleUpstream (fun _ => none) ⟨true, 200, "",
        JsonVal.obj [("candidates", .arr [.obj [("content",
          .obj [("parts", .arr [.obj [("text", .str "")]])])]])]⟩ =
      ⟨502, JsonVal.obj [("error", .str "Gemini returned empty response"),
        ("details", .str (stringify (JsonVal.obj [("candidates", .arr [.obj [("content",
          .obj [("parts", .arr [.obj [("text", .str "")]])])]])])))]⟩ ∧
    Relay.getField (handleUpstream (fun _ => none) ⟨true, 200, "",
        JsonVal.obj [("candidates", .arr [.obj [("content",
          .obj [("parts", .arr [.obj [("text", .str "")]])])]])]⟩).body "error" ≠
      some (.str "Gemini returned non-JSON") := by
  refine ⟨by decide, rfl, by decide, by decide⟩

/-- C5 amended: the upstream reply handling classifies exhaustively and
exclusively: non-ok status 429 gives the 429 rate-limit body with
isRateLimit true; any other non-ok status gives 502 "Gemini request
failed" with the body text as details; an ok reply without a non-empty
string text payload gives 502 "Gemini returned empty response"; an ok
reply whose non-empty string payload fails JSON parsing gives 502
"Gemini returned non-JSON" carrying the raw text; and an ok reply whose
payload parses gives 200 with the normalized body. -/
theorem claim5_upstream_classification (parseJson : String → Option JsonVal)
    (up : UpstreamResult) :
    (up.ok = false → up.status = 429 →
      handleUpstream parseJson up = ⟨429, rateLimitBody⟩ ∧
      Relay.getField rateLimitBody "isRateLimit" = some (.bool true)) ∧
    (up.ok = false → up.status ≠ 429 →
      handleUpstream parseJson up =
        ⟨502, JsonVal.obj [("error", .str "Gemini request failed"),
          ("details", .str up.text)]⟩) ∧
    (up.ok = true → (∀ s, extractContent up.json = some (.str s) → s = "") →
      (handleUpstream parseJson up).status = 502 ∧
      Relay.getField (handleUpstream parseJson up).body "error" =
        some (.str "Gemini returned empty response")) ∧
    (up.ok = true → ∀ s, extractContent up.json = some (.str s) → s ≠ "" →
      parseJson s = none →
      handleUpstream parseJson up =
        ⟨502, JsonVal.obj [("error", .str "Gemini returned non-JSON"),
          ("details", .str s)]⟩) ∧
    (up.ok = true → ∀ s p, extractContent up.json = some (.str s) → s ≠ "" →
      parseJson s = some p →
      handleUpstream parseJson up = ⟨200, normalizeReply p⟩) := by
  refine ⟨?_, ?_, ?_, ?_, ?_⟩
  · intro hok hst
    simp [handleUpstream, hok, hst, Relay.getField, assoc, rateLimitBody]
  · intro hok hst
    simp [handleUpstream, hok, hst]
  · intro hok hempty
    rcases hc : extractContent up.json with _ | v
    · simp [handleUpstream, hok, hc, truthyOpt, isStrOpt, Relay.getField, assoc]
    · cases v <;>
        simp_all [handleUpstream, hok, truthyOpt, isStrOpt, truthy, Relay.getField, assoc]
  · intro hok s hc hne hp
    simp [handleUpstream, hok, hc, truthyOpt, isStrOpt, truthy, hne, hp]
  · intro hok s p hc hne hp
    simp [handleUpstream, hok, hc, truthyOpt, isStrOpt, truthy, hne, hp]

theorem claim5_witness :
    ((⟨false, 429, "quota", .null⟩ : UpstreamResult).ok = false) ∧
    (handleUpstream (fun _ => none) ⟨false, 429, "quota", .null⟩ =
      ⟨429, rateLimitBody⟩ ∧
     Relay.getField rateLimitBody "isRateLimit" = some (.bool true)) :=
  ⟨rfl, (claim5_upstream_classification (fun _ => none)
    ⟨false, 429, "quota", .null⟩).1 rfl rfl⟩

section SanityClient
open Relay Client

example : (analyze ⟨"", true, true, "", "", "", "", "", false, false⟩ "x"
    (.reply true (.obj [("hasError", .bool true), ("correctedCode", .str " fix ")]))).correctedHidden
    = false := by decide

example : (analyze ⟨"", true, true, "", "", "", "", "", false, false⟩ "x"
    (.reply true (.obj [("hasError", .bool true), ("correctedCode", .num 3)]))).correctedHidden
    = true := by decide

example : (analyze ⟨"", true, true, "", "", "", "", "", false, false⟩ "x"
    (.reply true (.obj [("hasError", .bool true), ("correctedCode", .num 3)]))).resultsHtml
    = connectionErrorHtml (escapeHtml typeErrorMessage) := by decide

example : (analyze ⟨"", false, false, "", "", "", "", "", true, false⟩ "x"
    (.thrown "boom")).analyzeDisabled = false := by decide

example : (analyze ⟨"", true, true, "", "", "", "", "", false, false⟩ "x"
    (.reply false (.obj [("error", .str "Gemini request failed"), ("details", .str "d")]))).resultsHtml
    = analysisFailedHtml (escapeHtml "Gemini request failed") := by decide

end SanityClient

/-- C7: whenever the client issues a relay call (the trimmed code is
non-empty), the analyze trigger is re-enabled after the call settles, on
every outcome: success, HTTP failure, unexpected shape, or a thrown
exception. -/
theorem claim7_trigger_reenabled (st : ClientView) (codeText : String)
    (outcome : FetchOutcome) (h : jsTrim codeText ≠ "") :
    (analyze st codeText outcome).analyzeDisabled = false := by
  simp only [analyze, if_neg h]

theorem claim7_witness :
    jsTrim "print(" ≠ "" ∧
    (analyze ⟨"", true, true, "", "", "", "", "", false, false⟩ "print("
      (.thrown "NetworkError")).analyzeDisabled = false :=
  ⟨by decide, claim7_trigger_reenabled _ _ _ (by decide)⟩

/-- C8: on relay success with hasError true, the corrected-code panel is
shown iff the response's correctedCode is a string that is non-empty
after trimming; every other value (missing, null, empty, whitespace-only,
or non-string) leaves the panel hidden. -/
theorem claim8_corrected_panel_iff (st : ClientView) (codeText : String)
    (data : JsonVal) (h1 : jsTrim codeText ≠ "")
    (h2 : Relay.getField data "hasError" = some (.bool true)) :
    ((analyze st codeText (.reply true data)).correctedHidden = false ↔
      ∃ s, Relay.getField data "correctedCode" = some (.str s) ∧ jsTrim s ≠ "") := by
  obtain ⟨fs, rfl⟩ := obj_of_getField_some h2
  rcases hcc : Relay.getField (JsonVal.obj fs) "correctedCode" with _ | v
  · simp [analyze, h1, analyzeTry, showErrorDetails, showCorrectedCode, analyzeCatch,
      showNoError, truthyOpt, truthy, h2, hcc, jsOr]
  · cases v with
    | null =>
      simp [analyze, h1, analyzeTry, showErrorDetails, showCorrectedCode, analyzeCatch,
        showNoError, truthyOpt, truthy, h2, hcc, jsOr]
    | bool b =>
      cases b <;>
        simp [analyze, h1, analyzeTry, showErrorDetails, showCorrectedCode, analyzeCatch,
          showNoError, truthyOpt, truthy, h2, hcc, jsOr]
    | num n =>
      by_cases hn : n = 0 <;>
        simp [analyze, h1, analyzeTry, showErrorDetails, showCorrectedCode, analyzeCatch,
          showNoError, truthyOpt, truthy, h2, hcc, jsOr, hn]
    | str s =>
      by_cases hs : s = ""
      · subst hs
        simp [analyze, h1, analyzeTry, showErrorDetails, showCorrectedCode, analyzeCatch,
          showNoError, truthyOpt, truthy, h2, hcc, jsOr, jsTrim_empty]
      · by_cases ht : jsTrim s = "" <;>
          simp [analyze, h1, analyzeTry, showErrorDetails, showCorrectedCode, analyzeCatch,
            showNoError, truthyOpt, truthy, h2, hcc, jsOr, hs, ht]
    | arr xs =>
      simp [analyze, h1, analyzeTry, showErrorDetails, showCorrectedCode, analyzeCatch,
        showNoError, truthyOpt, truthy, h2, hcc, jsOr]
    | obj fs =>
      simp [analyze, h1, analyzeTry, showErrorDetails, showCorrectedCode, analyzeCatch,
        showNoError, truthyOpt, truthy, h2, hcc, jsOr]

theorem claim8_witness :
    jsTrim "x = 1" ≠ "" ∧
    Relay.getField (JsonVal.obj [("hasError", .bool true), ("error", .null),
      ("correctedCode", .str " fixed ")]) "hasError" = some (.bool true) ∧
    ((analyze ⟨"", true, true, "", "", "", "", "", false, false⟩ "x = 1"
        (.reply true (JsonVal.obj [("hasError", .bool true), ("error", .null),
          ("correctedCode", .str " fixed ")]))).correctedHidden = false ↔
      ∃ s, Relay.getField (JsonVal.obj [("hasError", .bool true), ("error", .null),
        ("correctedCode", .str " fixed ")]) "correctedCode" = some (.str s) ∧
        jsTrim s ≠ "") :=
  ⟨by decide, by decide, claim8_corrected_panel_iff _ _ _ (by decide) (by decide)⟩

/-- Helper: one replaceAll pass distributes over list append. -/
theorem replaceAllChar_append (c : Char) (r : List Char) (a b : List Char) :
    replaceAllChar c r (a ++ b) = replaceAllChar c r a ++ replaceAllChar c r b := by
  induction a with
  | nil => rfl
  | cons x xs ih => simp [replaceAllChar, ih]

/-- Helper: the composed passes distribute over list append. -/
theorem escapeHtmlChars_append (a b : List Char) :
    escapeHtmlChars (a ++ b) = escapeHtmlChars a ++ escapeHtmlChars b := by
  simp [escapeHtmlChars, replaceAllChar_append]

/-- Helper: the composed passes act on a single character as `escChar`. -/
theorem escapeHtmlChars_single (c : Char) : escapeHtmlChars [c] = escChar c := by
  by_cases h1 : c = ampC
  · subst h1; decide
  · by_cases h2 : c = ltC
    · subst h2; decide
    · by_cases h3 : c = gtC
      · subst h3; decide
      · by_cases h4 : c = quotC
        · subst h4; decide
        · by_cases h5 : c = aposC
          · subst h5; decide
          · simp [escapeHtmlChars, replaceAllChar, escChar, h1, h2, h3, h4, h5]

/-- Helper: escapeHtml substitutes each character independently. -/
theorem escapeHtmlChars_flatMap (s : List Char) :
    escapeHtmlChars s = s.flatMap escChar := by
  induction s with
  | nil => rfl
  | cons c cs ih =>
      rw [show c :: cs = [c] ++ cs from rfl, escapeHtmlChars_append,
        escapeHtmlChars_single, ih]
      simp

/-- Helper: every character a substitution emits is outside the escaped
alphabet. -/
theorem escChar_all_good (c : Char) : (escChar c).all goodChar = true := by
  by_cases h1 : c = ampC
  · subst h1; decide
  · by_cases h2 : c = ltC
    · subst h2; decide
    · by_cases h3 : c = gtC
      · subst h3; decide
      · by_cases h4 : c = quotC
        · subst h4; decide
        · by_cases h5 : c = aposC
          · subst h5; decide
          · simp [escChar, h1, h2, h3, h4, h5, goodChar]

/-- Helper: prepending one substitution block preserves the ampersand
rule. -/
theorem ampEntityOk_escChar_append (c : Char) (l : List Char)
    (h : ampEntityOk l = true) : ampEntityOk (escChar c ++ l) = true := by
  by_cases h1 : c = ampC
  · subst h1
    simp [escChar, ampEnt, ampEntityOk, entityStart, isPrefixOfChars, h]
    decide
  · by_cases h2 : c = ltC
    · subst h2
      simp [escChar, ltC, ampC, ltEnt, ampEntityOk, entityStart, isPrefixOfChars, h]
    · by_cases h3 : c = gtC
      · subst h3
        simp [escChar, gtC, ampC, ltC, gtEnt, ampEntityOk, entityStart, isPrefixOfChars, h]
      · by_cases h4 : c = quotC
        · subst h4
          simp [escChar, quotC, ampC, ltC, gtC, quotEnt, ampEntityOk, entityStart,
            isPrefixOfChars, h]
        · by_cases h5 : c = aposC
          · subst h5
            simp [escChar, aposC, ampC, ltC, gtC, quotC, aposEnt, ampEntityOk, entityStart,
              isPrefixOfChars, h]
          · simp [escChar, h1, h2, h3, h4, h5, ampEntityOk, h]

/-- Helper: every character of the escaped output is outside the escaped
alphabet. -/
theorem flatMap_escChar_all_good (s : List Char) :
    (s.flatMap escChar).all goodChar = true := by
  induction s with
  | nil => rfl
  | cons c cs ih => simp [List.flatMap_cons, List.all_append, escChar_all_good c, ih]

/-- Helper: the escaped output satisfies the ampersand-entity rule. -/
theorem flatMap_escChar_ampOk (s : List Char) :
    ampEntityOk (s.flatMap escChar) = true := by
  induction s with
  | nil => rfl
  | cons c cs ih => simpa [List.flatMap_cons] using ampEntityOk_escChar_append c _ ih

/-- C9: escapeHtml substitutes every occurrence of the five special
characters by its HTML entity, so its output has no raw angle bracket or
quote characters and every ampersand starts an emitted entity; and the
client inserts server-supplied error messages and details into the
failure panels only through escapeHtml. -/
theorem claim9_escapeHtml_sound (s msg details : String) (st : ClientView) :
    (escapeHtml s).data = s.data.flatMap escChar ∧
    (escapeHtml s).data.all goodChar = true ∧
    ampEntityOk (escapeHtml s).data = true ∧
    (analyzeTry st false (.obj [("error", .str msg),
        ("details", .str details)])).1.resultsHtml =
      analysisFailedHtml (escapeHtml (if msg = "" then "Request failed" else msg)) ∧
    (analyzeTry st false (.obj [("error", .str msg), ("details", .str details),
        ("isRateLimit", .bool true)])).1.resultsHtml =
      rateLimitHtml (escapeHtml (if msg = "" then "Request failed" else msg))
        (escapeHtml details) := by
  have hdata : (escapeHtml s).data = s.data.flatMap escChar := by
    show escapeHtmlChars s.data = s.data.flatMap escChar
    exact escapeHtmlChars_flatMap s.data
  refine ⟨hdata, ?_, ?_, ?_, ?_⟩
  · rw [hdata]; exact flatMap_escChar_all_good s.data
  · rw [hdata]; exact flatMap_escChar_ampOk s.data
  · by_cases hm : msg = "" <;>
      simp [analyzeTry, Relay.getField, assoc, jsOr, truthy, escapeHtmlVal, hm]
  · by_cases hm : msg = "" <;> by_cases hd : details = "" <;>
      simp [analyzeTry, Relay.getField, assoc, jsOr, truthy, escapeHtmlVal, hm, hd]
